import Mathlib

/-!
Verification of the screen-share / recording consensus and WebRTC signaling
subsystem of the THISTHAT collaboration backend.

The definitions below are a shallow embedding of:
  - supabase/functions/webrtc-signal/index.ts         (signaling relay)
  - supabase/functions/request-screen-share/index.ts  (session request, screen share)
  - the request-recording edge function               (session request, recording)
  - supabase/functions/screen-share-permission/index.ts (ballot casting, screen share)
  - supabase/functions/recording-permission/index.ts    (ballot casting, recording)
  - the WebRTCPanel screen-share reconnection logic (setupStreamEndedHandler,
    handleReconnectScreenShare, handleStopScreenShare)

Database tables follow the SQL migrations (rooms/participants from
20250607105129_foggy_dune.sql; webrtc_sessions, recording_sessions,
recording_permissions, webrtc_signals from the webrtc migration;
screen_share_permissions from 20250607105129_foggy_dune.sql).

Time is modelled in milliseconds (`Nat`), matching JavaScript `Date` arithmetic.
-/

namespace ThisThat

/-! ## Data model: table rows -/

/-- A row of the `participants` table (foggy_dune migration).  Columns not read
by any of the embedded handlers (user_color, joined_at, last_seen, cursor data)
are omitted. -/
structure Participant where
  user_id : String
  room_id : String
  display_name : String
  is_host : Bool
  is_online : Bool
  deriving Repr, DecidableEq

/-- A row of the `webrtc_sessions` table.  Per the DDL its columns are
id, room_id, session_type, host_user_id, started_at, ended_at, is_active,
metadata — there is **no** `status` column; session status lives inside the
`metadata` JSONB (`metadata.status`).  The two metadata fields the embedded
handlers read or write are modelled explicitly. -/
structure WebrtcSession where
  id : String
  room_id : String
  session_type : String
  host_user_id : String
  is_active : Bool
  /-- `metadata.status` (a JSON field, absent = `none`). -/
  metaStatus : Option String
  /-- `metadata.participantCount`: size of the online-participant snapshot
  recorded by request-screen-share at request time. -/
  metaParticipantCount : Nat
  deriving Repr, DecidableEq

/-- A row of the `recording_sessions` table.  Unlike `webrtc_sessions`, this
table has a real `status` column (VARCHAR). -/
structure RecordingSession where
  id : String
  room_id : String
  started_by : String
  status : String
  deriving Repr, DecidableEq

/-- A row of `screen_share_permissions` or `recording_permissions`:
`UNIQUE(session_id, user_id)`, `granted BOOLEAN NOT NULL`.  The `granted_at`
timestamp is never read by the handlers and is omitted. -/
structure PermissionRow where
  session_id : String
  user_id : String
  granted : Bool
  deriving Repr, DecidableEq

/-- A row of the `webrtc_signals` table: an addressed signaling envelope with
a creation and an expiry timestamp (milliseconds). -/
structure Signal where
  id : Nat
  room_id : String
  from_peer : String
  to_peer : String
  signal_type : String
  signal_data : String
  created_at : Nat
  expires_at : Nat
  deriving Repr, DecidableEq

/-- The durable store: one list per table the embedded handlers touch. -/
structure Db where
  participants : List Participant
  webrtc_sessions : List WebrtcSession
  recording_sessions : List RecordingSession
  screen_share_permissions : List PermissionRow
  recording_permissions : List PermissionRow
  webrtc_signals : List Signal
  deriving Repr, DecidableEq

/-! ## Signaling relay: `webrtc-signal` edge function -/

/-- `expiresAt.setMinutes(expiresAt.getMinutes() + 5)`: five minutes in
milliseconds. -/
def fiveMinutesMs : Nat := 5 * 60 * 1000

/-- POST branch of `webrtc-signal`: the handler inserts the envelope directly
with `expires_at = now + 5 minutes`.  It performs no validation whatsoever —
no `from_peer ≠ to_peer` check, and `webrtc_signals.room_id` has no foreign
key, so an unknown room is accepted too.  The insert always succeeds and the
handler replies `success: true`. -/
def postSignal (db : Db) (roomId fromUserId toUserId signalType signalData : String)
    (now : Nat) (newId : Nat) : Db :=
  { db with webrtc_signals := db.webrtc_signals ++
      [{ id := newId, room_id := roomId, from_peer := fromUserId,
         to_peer := toUserId, signal_type := signalType,
         signal_data := signalData, created_at := now,
         expires_at := now + fiveMinutesMs }] }

/-- `ORDER BY created_at ascending`. -/
def createdLE (a b : Signal) : Prop := a.created_at ≤ b.created_at

instance : DecidableRel createdLE := fun a b => Nat.decLe a.created_at b.created_at

instance : IsTotal Signal createdLE := ⟨fun a b => Nat.le_total a.created_at b.created_at⟩

instance : IsTrans Signal createdLE := ⟨fun _ _ _ hab hbc => Nat.le_trans hab hbc⟩

/-- GET branch of `webrtc-signal`: select every signal of the room addressed
to the user with `expires_at > now`, ordered by `created_at` ascending, then
delete the retrieved rows by id.  Returns the updated store and the retrieved
envelopes. -/
def getSignals (db : Db) (roomId userId : String) (now : Nat) : Db × List Signal :=
  let matching := db.webrtc_signals.filter
    (fun s => s.room_id = roomId && s.to_peer = userId && now < s.expires_at)
  let signals := List.insertionSort createdLE matching
  let ids := signals.map Signal.id
  ({ db with webrtc_signals :=
      db.webrtc_signals.filter (fun s => !(decide (s.id ∈ ids))) },
   signals)

/-! ## Shared queries -/

/-- `.from("participants").select(...).eq("user_id", u).eq("room_id", r).single()`.
`participants.user_id` is UNIQUE in the schema, so `find?` models `.single()`. -/
def findParticipant (db : Db) (roomId userId : String) : Option Participant :=
  db.participants.find? (fun p => p.user_id = userId && p.room_id = roomId)

/-- `.from("participants").select(...).eq("room_id", r).eq("is_online", true)`. -/
def onlineInRoom (db : Db) (roomId : String) : List Participant :=
  db.participants.filter (fun p => p.room_id = roomId && p.is_online)

/-- `.from("webrtc_sessions").select(...).eq("id", sessionId).single()`. -/
def sessionById (db : Db) (sessionId : String) : Option WebrtcSession :=
  db.webrtc_sessions.find? (fun s => s.id = sessionId)

/-- `.from("recording_sessions").select(...).eq("id", id).single()`. -/
def recordingById (db : Db) (sessionId : String) : Option RecordingSession :=
  db.recording_sessions.find? (fun s => s.id = sessionId)

/-- Result of a request handler: `err status message` is a non-200 JSON error
response; `ok sessionId participantIds` is the 200 response carrying the new
session id and the online-participant snapshot (user ids, in table order). -/
inductive ReqResult where
  | err (status : Nat) (msg : String)
  | ok (sessionId : String) (participantIds : List String)
  deriving Repr, DecidableEq

/-! ## `request-screen-share` edge function -/

/-- The columns `webrtc_sessions` actually has, per its CREATE TABLE. -/
def webrtcSessionsColumns : List String :=
  ["id", "room_id", "session_type", "host_user_id", "started_at", "ended_at",
   "is_active", "metadata"]

/-- The conflict lookup in request-screen-share:
`.from("webrtc_sessions").select("id, status").eq("room_id", r)
 .eq("session_type", "screen_share").in("status", ["active", "pending_permission"])
 .single()`.
The select list and the filter both name a `status` column, but
`webrtc_sessions` has no such column (see `webrtcSessionsColumns`; session
status is stored in `metadata.status`).  PostgREST therefore rejects the query
with a column-does-not-exist error and supabase-js returns `data = null`; the
handler destructures only `data` and discards the error, so the lookup always
yields nothing. -/
def screenShareConflictQuery (_db : Db) (_roomId : String) : Option WebrtcSession :=
  none

/-- The `request-screen-share` handler (after field-presence validation):
participant membership check (403), conflict check (409 — dead, see
`screenShareConflictQuery`), online-participant snapshot, then insert of the
new session with `is_active = false` and `metadata.status =
"pending_permission"`, `metadata.participantCount = snapshot size`. -/
def requestScreenShare (db : Db) (roomId userId : String) (newId : String) :
    Db × ReqResult :=
  match findParticipant db roomId userId with
  | none => (db, ReqResult.err 403 "User not in room")
  | some _participant =>
    match screenShareConflictQuery db roomId with
    | some _ =>
        (db, ReqResult.err 409 "Screen sharing already in progress or pending permission")
    | none =>
      let parts := onlineInRoom db roomId
      let session : WebrtcSession :=
        { id := newId, room_id := roomId, session_type := "screen_share",
          host_user_id := userId, is_active := false,
          metaStatus := some "pending_permission",
          metaParticipantCount := parts.length }
      ({ db with webrtc_sessions := db.webrtc_sessions ++ [session] },
       ReqResult.ok newId (parts.map Participant.user_id))

/-! ## `request-recording` edge function -/

/-- The conflict lookup in request-recording:
`.from("recording_sessions").select("id, status").eq("room_id", r)
 .in("status", ["recording", "pending_permission"]).single()`.
`recording_sessions` does have a `status` column, so this query works. -/
def recordingConflictQuery (db : Db) (roomId : String) : Option RecordingSession :=
  db.recording_sessions.find?
    (fun s => s.room_id = roomId &&
      (s.status = "recording" || s.status = "pending_permission"))

/-- The `request-recording` handler: membership check (403), host check
(403, "Only room host can start recording"), conflict check (409),
online-participant snapshot, insert of the new recording session with
`status = "pending_permission"`. -/
def requestRecording (db : Db) (roomId userId : String) (newId : String) :
    Db × ReqResult :=
  match findParticipant db roomId userId with
  | none => (db, ReqResult.err 403 "User not in room")
  | some participant =>
    if !participant.is_host then
      (db, ReqResult.err 403 "Only room host can start recording")
    else
      match recordingConflictQuery db roomId with
      | some _ =>
          (db, ReqResult.err 409 "Recording already in progress or pending permission")
      | none =>
        let parts := onlineInRoom db roomId
        let session : RecordingSession :=
          { id := newId, room_id := roomId, started_by := userId,
            status := "pending_permission" }
        ({ db with recording_sessions := db.recording_sessions ++ [session] },
         ReqResult.ok newId (parts.map Participant.user_id))

/-! ## Ballot casting: `screen-share-permission` and `recording-permission` -/

/-- Result of a permission handler: `err status message` is a non-200 error;
`ok status responsesReceived totalParticipants` is the 200 response
(`status` is `"active"`, `"recording"`, `"cancelled"` or
`"waiting_for_responses"`). -/
inductive BallotResult where
  | err (status : Nat) (msg : String)
  | ok (status : String) (responsesReceived totalParticipants : Nat)
  deriving Repr, DecidableEq

/-- `.upsert({session_id, user_id, granted}, {onConflict: "session_id,user_id"})`:
if a row with the key exists, its `granted` value is overwritten, otherwise a
new row is appended. -/
def upsertPermission (perms : List PermissionRow) (sid uid : String) (g : Bool) :
    List PermissionRow :=
  if perms.any (fun p => p.session_id = sid && p.user_id = uid) then
    perms.map (fun p =>
      if p.session_id = sid && p.user_id = uid then { p with granted := g } else p)
  else
    perms ++ [{ session_id := sid, user_id := uid, granted := g }]

/-- The `screen-share-permission` handler (after field-presence validation):
404 if the session is unknown, 400 if `metadata.status` is not
`"pending_permission"`; otherwise upsert the ballot, re-read the
currently-online participants of the room and all ballots of the session, and
if the ballot count equals the online-participant count decide:
all granted → `metadata.status = "active"`, `is_active = true`;
otherwise → `metadata.status = "cancelled"`, `is_active = false`.
Below the threshold, reply `waiting_for_responses` and change nothing else. -/
def screenSharePermission (db : Db) (sessionId userId : String) (granted : Bool) :
    Db × BallotResult :=
  match sessionById db sessionId with
  | none => (db, BallotResult.err 404 "Screen share session not found")
  | some session =>
    if session.metaStatus ≠ some "pending_permission" then
      (db, BallotResult.err 400 "Screen share session not requesting permission")
    else
      let db1 := { db with screen_share_permissions :=
                     upsertPermission db.screen_share_permissions sessionId userId granted }
      let onlineParticipants := onlineInRoom db1 session.room_id
      let permissions := db1.screen_share_permissions.filter
        (fun p => p.session_id = sessionId)
      let totalParticipants := onlineParticipants.length
      let totalResponses := permissions.length
      let allGranted := permissions.all (fun p => p.granted)
      if totalResponses = totalParticipants then
        let newStatus := if allGranted then "active" else "cancelled"
        let updated := db1.webrtc_sessions.map (fun s =>
          if s.id = sessionId then
            { s with is_active := allGranted, metaStatus := some newStatus }
          else s)
        let db2 := { db1 with webrtc_sessions := updated }
        (db2, BallotResult.ok newStatus totalResponses totalParticipants)
      else
        (db1, BallotResult.ok "waiting_for_responses" totalResponses totalParticipants)

/-- The `recording-permission` handler, structurally identical to
`screenSharePermission` but over `recording_sessions` (real `status` column,
target status `"recording"`) and `recording_permissions`. -/
def recordingPermission (db : Db) (recordingSessionId userId : String) (granted : Bool) :
    Db × BallotResult :=
  match recordingById db recordingSessionId with
  | none => (db, BallotResult.err 404 "Recording session not found")
  | some session =>
    if session.status ≠ "pending_permission" then
      (db, BallotResult.err 400 "Recording session not requesting permission")
    else
      let db1 := { db with recording_permissions :=
                     upsertPermission db.recording_permissions recordingSessionId userId granted }
      let onlineParticipants := onlineInRoom db1 session.room_id
      let permissions := db1.recording_permissions.filter
        (fun p => p.session_id = recordingSessionId)
      let totalParticipants := onlineParticipants.length
      let totalResponses := permissions.length
      let allGranted := permissions.all (fun p => p.granted)
      if totalResponses = totalParticipants then
        let newStatus := if allGranted then "recording" else "cancelled"
        let updated := db1.recording_sessions.map (fun s =>
          if s.id = recordingSessionId then { s with status := newStatus } else s)
        let db2 := { db1 with recording_sessions := updated }
        (db2, BallotResult.ok newStatus totalResponses totalParticipants)
      else
        (db1, BallotResult.ok "waiting_for_responses" totalResponses totalParticipants)

/-! ## Peer Connection Manager: WebRTCPanel screen-share reconnection

Embedding of the reconnection logic in the WebRTCPanel component:
`setupStreamEndedHandler` (the `ended` listener on the local video track),
`handleReconnectScreenShare`, and `handleStopScreenShare`.  React `useRef`
cells and the claim-relevant `useState` cells become fields of
`ManagerState`; each `setTimeout` becomes a pending timer `(id, fireAt)`;
externally visible actions are appended to a trace.  UI-only state
(error strings, mic mute, video element, audio notifications, backend stop
notification) is elided. -/

/-- Externally visible actions of the manager, in program order. -/
inductive MEvent where
  /-- A `setConnectionStatus(...)` call. -/
  | setStatus (s : String)
  /-- A `navigator.mediaDevices.getDisplayMedia(...)` call — the start of a
  (re)capture attempt. -/
  | getDisplayMedia
  /-- Stopping the tracks of the current local stream. -/
  | stopTracks
  /-- A `setTimeout(handleReconnectScreenShare, delay)` call. -/
  | schedule (id delay : Nat)
  /-- A `clearTimeout` on a timer id. -/
  | cancel (id : Nat)
  deriving Repr, DecidableEq

/-- State of one screen-share manager instance.
`reconnectTimeout` mirrors `reconnectTimeoutRef` (the id of the timer stored
there, possibly already fired); `timers` holds the pending `setTimeout`s as
`(id, fireAt)` pairs; `endedHandler` mirrors `streamEndedHandlerRef` being
attached; `localStream` mirrors `localStreamRef` being non-null. -/
structure ManagerState where
  isScreenSharing : Bool
  connectionStatus : String
  reconnectAttempts : Nat
  isUserStopped : Bool
  reconnectTimeout : Option Nat
  timers : List (Nat × Nat)
  endedHandler : Bool
  localStream : Bool
  trace : List MEvent
  deriving Repr, DecidableEq

/-- `maxReconnectAttempts = 3`. -/
def maxReconnectAttempts : Nat := 3

/-- `handleStopScreenShare`: set `isUserStoppedRef` true, clear the timer
stored in `reconnectTimeoutRef` (only that one), detach the stream-ended
handler, stop the local tracks; the `finally` block then resets sharing
state: `reconnectAttemptsRef = 0`, status `"idle"`, and
`isUserStoppedRef = false` again. -/
def handleStopScreenShare (m : ManagerState) : ManagerState :=
  let m1 := { m with isUserStopped := true }
  let m2 :=
    match m1.reconnectTimeout with
    | some tid =>
        { m1 with timers := m1.timers.filter (fun t => t.1 ≠ tid),
                  reconnectTimeout := none,
                  trace := m1.trace ++ [MEvent.cancel tid] }
    | none => m1
  let m3 := { m2 with endedHandler := false }
  let m4 :=
    if m3.localStream then
      { m3 with localStream := false, trace := m3.trace ++ [MEvent.stopTracks] }
    else m3
  { m4 with isScreenSharing := false,
            reconnectAttempts := 0,
            connectionStatus := "idle",
            isUserStopped := false,
            trace := m4.trace ++ [MEvent.setStatus "idle"] }

/-- Outcome of the `getDisplayMedia` call inside a reconnection attempt. -/
inductive ReconnectOutcome where
  /-- Capture succeeded and a stream was obtained. -/
  | success
  /-- The user denied the capture permission (`NotAllowedError`). -/
  | notAllowed
  /-- Any other failure. -/
  | transientError
  deriving Repr, DecidableEq

/-- `handleReconnectScreenShare`: set status `"connecting"`, call
`getDisplayMedia`.  On success: replace the local stream (stopping the old
tracks), re-attach the ended handler, reset the attempt counter to 0 and set
status `"connected"`.  On failure: set status `"failed"`; a `NotAllowedError`
triggers `handleStopScreenShare`, any other error schedules a retry of
`handleReconnectScreenShare` after a fixed 5000 ms when
`reconnectAttemptsRef < maxReconnectAttempts` — via a **bare** `setTimeout`
that is *not* stored in `reconnectTimeoutRef` — and otherwise triggers
`handleStopScreenShare`.  Note the function never consults
`isUserStoppedRef`. -/
def handleReconnectScreenShare (m : ManagerState) (outcome : ReconnectOutcome)
    (now newTimerId : Nat) : ManagerState :=
  let m0 := { m with connectionStatus := "connecting",
                     trace := m.trace ++ [MEvent.setStatus "connecting",
                                          MEvent.getDisplayMedia] }
  match outcome with
  | ReconnectOutcome.success =>
    let m1 :=
      if m0.localStream then { m0 with trace := m0.trace ++ [MEvent.stopTracks] }
      else m0
    { m1 with localStream := true, endedHandler := true,
              reconnectAttempts := 0, connectionStatus := "connected",
              trace := m1.trace ++ [MEvent.setStatus "connected"] }
  | ReconnectOutcome.notAllowed =>
    handleStopScreenShare
      { m0 with connectionStatus := "failed",
                trace := m0.trace ++ [MEvent.setStatus "failed"] }
  | ReconnectOutcome.transientError =>
    let m1 := { m0 with connectionStatus := "failed",
                        trace := m0.trace ++ [MEvent.setStatus "failed"] }
    if m1.reconnectAttempts < maxReconnectAttempts then
      { m1 with timers := m1.timers ++ [(newTimerId, now + 5000)],
                trace := m1.trace ++ [MEvent.schedule newTimerId 5000] }
    else
      handleStopScreenShare m1

/-- The `ended` listener installed by `setupStreamEndedHandler`: if the user
did not manually stop, sharing is on, and fewer than `maxReconnectAttempts`
reconnections have been attempted, increment the counter, set status
`"reconnecting"` and schedule `handleReconnectScreenShare` after
`2000 * reconnectAttemptsRef.current` ms, storing the timer id in
`reconnectTimeoutRef`.  If the user manually stopped, do nothing.  Otherwise
(attempts exhausted) set status `"failed"` and run `handleStopScreenShare`. -/
def handleEnded (m : ManagerState) (now newTimerId : Nat) : ManagerState :=
  if !m.isUserStopped && m.isScreenSharing &&
      m.reconnectAttempts < maxReconnectAttempts then
    let n := m.reconnectAttempts + 1
    { m with reconnectAttempts := n,
             connectionStatus := "reconnecting",
             reconnectTimeout := some newTimerId,
             timers := m.timers ++ [(newTimerId, now + 2000 * n)],
             trace := m.trace ++ [MEvent.setStatus "reconnecting",
                                  MEvent.schedule newTimerId (2000 * n)] }
  else if m.isUserStopped then
    m
  else
    handleStopScreenShare
      { m with connectionStatus := "failed",
               trace := m.trace ++ [MEvent.setStatus "failed"] }

/-- Firing of a pending timer: if the id is still pending, remove it and run
`handleReconnectScreenShare` (every timer in this fragment targets that
function).  A cancelled (no longer pending) timer does nothing.  JavaScript
does not clear `reconnectTimeoutRef` when the timer fires, so the ref may go
stale; the model keeps it unchanged likewise. -/
def fireTimer (m : ManagerState) (tid : Nat) (outcome : ReconnectOutcome)
    (now newTimerId : Nat) : ManagerState :=
  if m.timers.any (fun t => t.1 = tid) then
    handleReconnectScreenShare
      { m with timers := m.timers.filter (fun t => t.1 ≠ tid) }
      outcome now newTimerId
  else m

/-! ## Helper lemmas -/

/-- The upserted ballot is present afterwards, with the upserted `granted`
value. -/
theorem upsertPermission_mem (perms : List PermissionRow) (sid uid : String) (g : Bool) :
    ∃ p ∈ upsertPermission perms sid uid g,
      p.session_id = sid ∧ p.user_id = uid ∧ p.granted = g := by
  unfold upsertPermission
  split
  · rename_i hany
    rw [List.any_eq_true] at hany
    obtain ⟨q, hq, hkey⟩ := hany
    simp only [Bool.and_eq_true, decide_eq_true_eq] at hkey
    refine ⟨{ q with granted := g }, ?_, hkey.1, hkey.2, rfl⟩
    have : (fun p => if p.session_id = sid && p.user_id = uid then
        { p with granted := g } else p) q = { q with granted := g } := by
      simp [hkey.1, hkey.2]
    exact this ▸ List.mem_map_of_mem _ hq
  · exact ⟨⟨sid, uid, g⟩, List.mem_append_right _ (List.mem_singleton_self _),
      rfl, rfl, rfl⟩

/-- If the voter already has a ballot for the session, the upsert keeps the
number of rows unchanged. -/
theorem upsertPermission_length (perms : List PermissionRow) (sid uid : String)
    (g : Bool) (h : ∃ q ∈ perms, q.session_id = sid ∧ q.user_id = uid) :
    (upsertPermission perms sid uid g).length = perms.length := by
  obtain ⟨q, hq, hk1, hk2⟩ := h
  have hany : perms.any (fun p => p.session_id = sid && p.user_id = uid) = true := by
    rw [List.any_eq_true]
    exact ⟨q, hq, by simp [hk1, hk2]⟩
  simp [upsertPermission, hany]

/-- A `find?` hit on the id predicate indeed has that id. -/
theorem sessionById_id (db : Db) (sid : String) (s : WebrtcSession)
    (h : sessionById db sid = some s) : s.id = sid := by
  have := List.find?_some h
  simpa using this

/-- Updating the found session row: `find?` on the mapped list returns the
updated row. -/
theorem find?_map_update_webrtc (sessions : List WebrtcSession) (sid : String)
    (g : Bool) (st : String) (s : WebrtcSession)
    (h : sessions.find? (fun x => x.id = sid) = some s) :
    (sessions.map (fun x => if x.id = sid then
        { x with is_active := g, metaStatus := some st } else x)).find?
      (fun x => x.id = sid) =
      some { s with is_active := g, metaStatus := some st } := by
  induction sessions with
  | nil => simp at h
  | cons a l ih =>
    by_cases ha : a.id = sid
    · rw [List.find?_cons_of_pos _ (by simpa using ha)] at h
      cases h
      simp [List.map_cons, List.find?_cons, ha]
    · rw [List.find?_cons_of_neg _ (by simpa using ha)] at h
      simpa [List.map_cons, List.find?_cons, ha] using ih h

/-- Recording variant of `find?_map_update_webrtc`. -/
theorem find?_map_update_recording (sessions : List RecordingSession) (sid : String)
    (st : String) (s : RecordingSession)
    (h : sessions.find? (fun x => x.id = sid) = some s) :
    (sessions.map (fun x => if x.id = sid then { x with status := st } else x)).find?
      (fun x => x.id = sid) = some { s with status := st } := by
  induction sessions with
  | nil => simp at h
  | cons a l ih =>
    by_cases ha : a.id = sid
    · rw [List.find?_cons_of_pos _ (by simpa using ha)] at h
      cases h
      simp [List.map_cons, List.find?_cons, ha]
    · rw [List.find?_cons_of_neg _ (by simpa using ha)] at h
      simpa [List.map_cons, List.find?_cons, ha] using ih h

/-- Branch characterization of `screenSharePermission`: below the response
threshold the handler only upserts the ballot and reports
`waiting_for_responses`. -/
theorem screenSharePermission_waiting (db : Db) (sid uid : String) (g : Bool)
    (s : WebrtcSession) (hs : sessionById db sid = some s)
    (hpend : s.metaStatus = some "pending_permission")
    (hne : ((upsertPermission db.screen_share_permissions sid uid g).filter
        (fun p => p.session_id = sid)).length ≠ (onlineInRoom db s.room_id).length) :
    screenSharePermission db sid uid g =
      ({ db with screen_share_permissions :=
            upsertPermission db.screen_share_permissions sid uid g },
       BallotResult.ok "waiting_for_responses"
         ((upsertPermission db.screen_share_permissions sid uid g).filter
            (fun p => p.session_id = sid)).length
         (onlineInRoom db s.room_id).length) := by
  unfold screenSharePermission
  rw [hs]
  simp only [hpend, ne_eq, not_true_eq_false, if_false, ite_not]
  simp only [onlineInRoom] at hne ⊢
  rw [if_neg hne]

/-- Branch characterization of `screenSharePermission`: at the response
threshold the handler decides, setting `metadata.status` to `"active"` when
every ballot is a grant and to `"cancelled"` otherwise. -/
theorem screenSharePermission_decided (db : Db) (sid uid : String) (g : Bool)
    (s : WebrtcSession) (hs : sessionById db sid = some s)
    (hpend : s.metaStatus = some "pending_permission")
    (heq : ((upsertPermission db.screen_share_permissions sid uid g).filter
        (fun p => p.session_id = sid)).length = (onlineInRoom db s.room_id).length) :
    screenSharePermission db sid uid g =
      ({ db with
          screen_share_permissions :=
            upsertPermission db.screen_share_permissions sid uid g,
          webrtc_sessions := db.webrtc_sessions.map (fun x =>
            if x.id = sid then
              { x with
                  is_active := ((upsertPermission db.screen_share_permissions sid uid g).filter
                    (fun p => p.session_id = sid)).all (fun p => p.granted),
                  metaStatus := some
                    (if ((upsertPermission db.screen_share_permissions sid uid g).filter
                        (fun p => p.session_id = sid)).all (fun p => p.granted)
                     then "active" else "cancelled") }
            else x) },
       BallotResult.ok
         (if ((upsertPermission db.screen_share_permissions sid uid g).filter
             (fun p => p.session_id = sid)).all (fun p => p.granted)
          then "active" else "cancelled")
         ((upsertPermission db.screen_share_permissions sid uid g).filter
            (fun p => p.session_id = sid)).length
         (onlineInRoom db s.room_id).length) := by
  unfold screenSharePermission
  rw [hs]
  simp only [hpend, ne_eq, not_true_eq_false, if_false, ite_not]
  simp only [onlineInRoom] at heq ⊢
  rw [if_pos heq]

/-- Branch characterization of `recordingPermission`: below the response
threshold the handler only upserts the ballot and reports
`waiting_for_responses`. -/
theorem recordingPermission_waiting (db : Db) (sid uid : String) (g : Bool)
    (s : RecordingSession) (hs : recordingById db sid = some s)
    (hpend : s.status = "pending_permission")
    (hne : ((upsertPermission db.recording_permissions sid uid g).filter
        (fun p => p.session_id = sid)).length ≠ (onlineInRoom db s.room_id).length) :
    recordingPermission db sid uid g =
      ({ db with recording_permissions :=
            upsertPermission db.recording_permissions sid uid g },
       BallotResult.ok "waiting_for_responses"
         ((upsertPermission db.recording_permissions sid uid g).filter
            (fun p => p.session_id = sid)).length
         (onlineInRoom db s.room_id).length) := by
  unfold recordingPermission
  rw [hs]
  simp only [hpend, ne_eq, not_true_eq_false, if_false, ite_not]
  simp only [onlineInRoom] at hne ⊢
  rw [if_neg hne]

/-- Branch characterization of `recordingPermission`: at the response
threshold the handler decides, setting `status` to `"recording"` when every
ballot is a grant and to `"cancelled"` otherwise. -/
theorem recordingPermission_decided (db : Db) (sid uid : String) (g : Bool)
    (s : RecordingSession) (hs : recordingById db sid = some s)
    (hpend : s.status = "pending_permission")
    (heq : ((upsertPermission db.recording_permissions sid uid g).filter
        (fun p => p.session_id = sid)).length = (onlineInRoom db s.room_id).length) :
    recordingPermission db sid uid g =
      ({ db with
          recording_permissions :=
            upsertPermission db.recording_permissions sid uid g,
          recording_sessions := db.recording_sessions.map (fun x =>
            if x.id = sid then
              { x with status :=
                  (if ((upsertPermission db.recording_permissions sid uid g).filter
                      (fun p => p.session_id = sid)).all (fun p => p.granted)
                   then "recording" else "cancelled") }
            else x) },
       BallotResult.ok
         (if ((upsertPermission db.recording_permissions sid uid g).filter
             (fun p => p.session_id = sid)).all (fun p => p.granted)
          then "recording" else "cancelled")
         ((upsertPermission db.recording_permissions sid uid g).filter
            (fun p => p.session_id = sid)).length
         (onlineInRoom db s.room_id).length) := by
  unfold recordingPermission
  rw [hs]
  simp only [hpend, ne_eq, not_true_eq_false, if_false, ite_not]
  simp only [onlineInRoom] at heq ⊢
  rw [if_pos heq]

/-- In every non-error run, the ballot table after `screenSharePermission`
is exactly the upsert of the cast ballot. -/
theorem screenSharePermission_ballots (db : Db) (sid uid : String) (g : Bool)
    (s : WebrtcSession) (hs : sessionById db sid = some s)
    (hpend : s.metaStatus = some "pending_permission") :
    (screenSharePermission db sid uid g).1.screen_share_permissions =
      upsertPermission db.screen_share_permissions sid uid g := by
  by_cases hc : ((upsertPermission db.screen_share_permissions sid uid g).filter
      (fun p => p.session_id = sid)).length = (onlineInRoom db s.room_id).length
  · rw [screenSharePermission_decided db sid uid g s hs hpend hc]
  · rw [screenSharePermission_waiting db sid uid g s hs hpend hc]

/-- A granted = false row in a ballot list falsifies `all granted`. -/
theorem all_granted_false_of_mem {l : List PermissionRow} {p : PermissionRow}
    (hp : p ∈ l) (hg : p.granted = false) :
    l.all (fun q => q.granted) = false := by
  cases hall : l.all (fun q => q.granted) with
  | false => rfl
  | true =>
    rw [List.all_eq_true] at hall
    have := hall p hp
    rw [hg] at this
    exact absurd this Bool.false_ne_true

/-! ## Concrete fixtures -/

/-- Two-participant room `r` (alice the host, bob), both online, with a
pending screen-share session `s1` and a pending recording session `rec1`,
no ballots yet. -/
def dbTwo : Db :=
  { participants :=
      [{ user_id := "alice", room_id := "r", display_name := "Alice",
         is_host := true, is_online := true },
       { user_id := "bob", room_id := "r", display_name := "Bob",
         is_host := false, is_online := true }],
    webrtc_sessions :=
      [{ id := "s1", room_id := "r", session_type := "screen_share",
         host_user_id := "alice", is_active := false,
         metaStatus := some "pending_permission", metaParticipantCount := 2 }],
    recording_sessions :=
      [{ id := "rec1", room_id := "r", started_by := "alice",
         status := "pending_permission" }],
    screen_share_permissions := [], recording_permissions := [],
    webrtc_signals := [] }

/-- One-participant room `q` (carol, online) with a pending screen-share
session `s2` and a pending recording session `rec2`, no ballots yet. -/
def dbOne : Db :=
  { participants :=
      [{ user_id := "carol", room_id := "q", display_name := "Carol",
         is_host := true, is_online := true }],
    webrtc_sessions :=
      [{ id := "s2", room_id := "q", session_type := "screen_share",
         host_user_id := "carol", is_active := false,
         metaStatus := some "pending_permission", metaParticipantCount := 1 }],
    recording_sessions :=
      [{ id := "rec2", room_id := "q", started_by := "carol",
         status := "pending_permission" }],
    screen_share_permissions := [], recording_permissions := [],
    webrtc_signals := [] }

/-! ## C1 -/

/-- **C1, counterexample.**  In the two-participant room, bob casts
`granted = false` on the pending screen-share session while alice has not yet
responded.  The claim says the session transitions to `Cancelled` on that very
call; in fact the handler replies `waiting_for_responses` and leaves the
session in `pending_permission`. -/
theorem c1_counterexample :
    (screenSharePermission dbTwo "s1" "bob" false).2 =
      BallotResult.ok "waiting_for_responses" 1 2 ∧
    sessionById (screenSharePermission dbTwo "s1" "bob" false).1 "s1" =
      some { id := "s1", room_id := "r", session_type := "screen_share",
             host_user_id := "alice", is_active := false,
             metaStatus := some "pending_permission", metaParticipantCount := 2 } := by
  exact ⟨rfl, rfl⟩

/-- **C1** (amended): casting a `granted = false` ballot on a session in
`pending_permission` transitions it to `cancelled` exactly on the call where,
after the upsert, the number of recorded ballots equals the number of
currently-online participants of the room; on any earlier call the handler
replies `waiting_for_responses` and the session stays `pending_permission`.
This holds for the screen-share handler and for the recording handler. -/
theorem c1_deny_cancels_only_at_threshold :
    (∀ (db : Db) (sid uid : String) (s : WebrtcSession),
      sessionById db sid = some s →
      s.metaStatus = some "pending_permission" →
      (((upsertPermission db.screen_share_permissions sid uid false).filter
          (fun p => p.session_id = sid)).length = (onlineInRoom db s.room_id).length →
        sessionById (screenSharePermission db sid uid false).1 sid =
          some { s with is_active := false, metaStatus := some "cancelled" } ∧
        (screenSharePermission db sid uid false).2 =
          BallotResult.ok "cancelled"
            ((upsertPermission db.screen_share_permissions sid uid false).filter
              (fun p => p.session_id = sid)).length
            (onlineInRoom db s.room_id).length) ∧
      (((upsertPermission db.screen_share_permissions sid uid false).filter
          (fun p => p.session_id = sid)).length ≠ (onlineInRoom db s.room_id).length →
        sessionById (screenSharePermission db sid uid false).1 sid = some s ∧
        (screenSharePermission db sid uid false).2 =
          BallotResult.ok "waiting_for_responses"
            ((upsertPermission db.screen_share_permissions sid uid false).filter
              (fun p => p.session_id = sid)).length
            (onlineInRoom db s.room_id).length)) ∧
    (∀ (db : Db) (sid uid : String) (s : RecordingSession),
      recordingById db sid = some s →
      s.status = "pending_permission" →
      (((upsertPermission db.recording_permissions sid uid false).filter
          (fun p => p.session_id = sid)).length = (onlineInRoom db s.room_id).length →
        recordingById (recordingPermission db sid uid false).1 sid =
          some { s with status := "cancelled" } ∧
        (recordingPermission db sid uid false).2 =
          BallotResult.ok "cancelled"
            ((upsertPermission db.recording_permissions sid uid false).filter
              (fun p => p.session_id = sid)).length
            (onlineInRoom db s.room_id).length) ∧
      (((upsertPermission db.recording_permissions sid uid false).filter
          (fun p => p.session_id = sid)).length ≠ (onlineInRoom db s.room_id).length →
        recordingById (recordingPermission db sid uid false).1 sid = some s ∧
        (recordingPermission db sid uid false).2 =
          BallotResult.ok "waiting_for_responses"
            ((upsertPermission db.recording_permissions sid uid false).filter
              (fun p => p.session_id = sid)).length
            (onlineInRoom db s.room_id).length)) := by
  constructor
  · intro db sid uid s hs hpend
    have hAG : ((upsertPermission db.screen_share_permissions sid uid false).filter
        (fun p => p.session_id = sid)).all (fun p => p.granted) = false := by
      obtain ⟨p, hpmem, hpsid, _hpuid, hpg⟩ :=
        upsertPermission_mem db.screen_share_permissions sid uid false
      exact all_granted_false_of_mem
        (List.mem_filter.mpr ⟨hpmem, by simp [hpsid]⟩) hpg
    constructor
    · intro heq
      rw [screenSharePermission_decided db sid uid false s hs hpend heq]
      rw [hAG]
      refine ⟨?_, rfl⟩
      simp only [sessionById, Bool.false_eq_true, if_false]
      exact find?_map_update_webrtc db.webrtc_sessions sid false "cancelled" s hs
    · intro hne
      rw [screenSharePermission_waiting db sid uid false s hs hpend hne]
      exact ⟨hs, rfl⟩
  · intro db sid uid s hs hpend
    have hAG : ((upsertPermission db.recording_permissions sid uid false).filter
        (fun p => p.session_id = sid)).all (fun p => p.granted) = false := by
      obtain ⟨p, hpmem, hpsid, _hpuid, hpg⟩ :=
        upsertPermission_mem db.recording_permissions sid uid false
      exact all_granted_false_of_mem
        (List.mem_filter.mpr ⟨hpmem, by simp [hpsid]⟩) hpg
    constructor
    · intro heq
      rw [recordingPermission_decided db sid uid false s hs hpend heq]
      rw [hAG]
      refine ⟨?_, rfl⟩
      simp only [recordingById, Bool.false_eq_true, if_false]
      exact find?_map_update_recording db.recording_sessions sid "cancelled" s hs
    · intro hne
      rw [recordingPermission_waiting db sid uid false s hs hpend hne]
      exact ⟨hs, rfl⟩

/-- **C1, witness.**  The amended theorem evaluated on concrete stores: in the
one-participant room the deny from carol cancels at once (threshold met), in the
two-participant room the deny from bob leaves the session pending; likewise for the
recording handler. -/
theorem c1_witness :
    (sessionById (screenSharePermission dbOne "s2" "carol" false).1 "s2" =
        some { id := "s2", room_id := "q", session_type := "screen_share",
               host_user_id := "carol", is_active := false,
               metaStatus := some "cancelled", metaParticipantCount := 1 } ∧
      (screenSharePermission dbOne "s2" "carol" false).2 =
        BallotResult.ok "cancelled" 1 1) ∧
    (sessionById (screenSharePermission dbTwo "s1" "bob" false).1 "s1" =
        some { id := "s1", room_id := "r", session_type := "screen_share",
               host_user_id := "alice", is_active := false,
               metaStatus := some "pending_permission", metaParticipantCount := 2 } ∧
      (screenSharePermission dbTwo "s1" "bob" false).2 =
        BallotResult.ok "waiting_for_responses" 1 2) ∧
    (recordingById (recordingPermission dbOne "rec2" "carol" false).1 "rec2" =
        some { id := "rec2", room_id := "q", started_by := "carol",
               status := "cancelled" } ∧
      (recordingPermission dbOne "rec2" "carol" false).2 =
        BallotResult.ok "cancelled" 1 1) := by
  refine ⟨?_, ?_, ?_⟩
  · exact (c1_deny_cancels_only_at_threshold.1 dbOne "s2" "carol" _ rfl rfl).1 (by decide)
  · exact (c1_deny_cancels_only_at_threshold.1 dbTwo "s1" "bob" _ rfl rfl).2 (by decide)
  · exact (c1_deny_cancels_only_at_threshold.2 dbOne "rec2" "carol" _ rfl rfl).1 (by decide)

/-- Store component of the waiting branch of `screenSharePermission`. -/
theorem screenSharePermission_waiting_fst (db : Db) (sid uid : String) (g : Bool)
    (s : WebrtcSession) (hs : sessionById db sid = some s)
    (hpend : s.metaStatus = some "pending_permission")
    (hne : ((upsertPermission db.screen_share_permissions sid uid g).filter
        (fun p => p.session_id = sid)).length ≠ (onlineInRoom db s.room_id).length) :
    (screenSharePermission db sid uid g).1 =
      { db with screen_share_permissions :=
          upsertPermission db.screen_share_permissions sid uid g } := by
  rw [screenSharePermission_waiting db sid uid g s hs hpend hne]

/-- When the threshold is met and every ballot grants, the handler activates
the session. -/
theorem screenSharePermission_activates (db : Db) (sid uid : String) (g : Bool)
    (s : WebrtcSession) (hs : sessionById db sid = some s)
    (hpend : s.metaStatus = some "pending_permission")
    (heq : ((upsertPermission db.screen_share_permissions sid uid g).filter
        (fun p => p.session_id = sid)).length = (onlineInRoom db s.room_id).length)
    (hag : ((upsertPermission db.screen_share_permissions sid uid g).filter
        (fun p => p.session_id = sid)).all (fun p => p.granted) = true) :
    (screenSharePermission db sid uid g).1 =
      { db with
          screen_share_permissions :=
            upsertPermission db.screen_share_permissions sid uid g,
          webrtc_sessions := db.webrtc_sessions.map (fun x =>
            if x.id = sid then
              { x with is_active := true, metaStatus := some "active" }
            else x) } ∧
    (screenSharePermission db sid uid g).2 =
      BallotResult.ok "active"
        ((upsertPermission db.screen_share_permissions sid uid g).filter
          (fun p => p.session_id = sid)).length
        (onlineInRoom db s.room_id).length := by
  rw [screenSharePermission_decided db sid uid g s hs hpend heq, hag]
  exact ⟨rfl, rfl⟩

/-- When the threshold is met and some ballot denies, the handler cancels
the session. -/
theorem screenSharePermission_cancels (db : Db) (sid uid : String) (g : Bool)
    (s : WebrtcSession) (hs : sessionById db sid = some s)
    (hpend : s.metaStatus = some "pending_permission")
    (heq : ((upsertPermission db.screen_share_permissions sid uid g).filter
        (fun p => p.session_id = sid)).length = (onlineInRoom db s.room_id).length)
    (hag : ((upsertPermission db.screen_share_permissions sid uid g).filter
        (fun p => p.session_id = sid)).all (fun p => p.granted) = false) :
    (screenSharePermission db sid uid g).1 =
      { db with
          screen_share_permissions :=
            upsertPermission db.screen_share_permissions sid uid g,
          webrtc_sessions := db.webrtc_sessions.map (fun x =>
            if x.id = sid then
              { x with is_active := false, metaStatus := some "cancelled" }
            else x) } ∧
    (screenSharePermission db sid uid g).2 =
      BallotResult.ok "cancelled"
        ((upsertPermission db.screen_share_permissions sid uid g).filter
          (fun p => p.session_id = sid)).length
        (onlineInRoom db s.room_id).length := by
  rw [screenSharePermission_decided db sid uid g s hs hpend heq, hag]
  exact ⟨rfl, rfl⟩

/-! ## C2 -/

/-- Room `r` with only alice online at request time. -/
def dbSolo : Db :=
  { participants :=
      [{ user_id := "alice", room_id := "r", display_name := "Alice",
         is_host := true, is_online := true }],
    webrtc_sessions := [], recording_sessions := [],
    screen_share_permissions := [], recording_permissions := [],
    webrtc_signals := [] }

/-- The store after alice requests a screen share in `dbSolo`: the session
`s1` carries a snapshot of size 1 (`metadata.participantCount`). -/
def dbSnapshot : Db := (requestScreenShare dbSolo "r" "alice" "s1").1

/-- `dbSnapshot` after bob joins room `r` and comes online — the live
participant count is now 2 while the request-time snapshot stays 1. -/
def dbSnapshotGrown : Db :=
  { dbSnapshot with participants := dbSnapshot.participants ++
      [{ user_id := "bob", room_id := "r", display_name := "Bob",
         is_host := false, is_online := true }] }

/-- **C2, counterexample.**  A session requested with a snapshot of size
N = 1; after bob comes online, alice casts the lone `granted = true` ballot.
The number of `granted = true` ballots now equals N, yet the handler replies
`waiting_for_responses` and the session stays `pending_permission`: the
activation comparison uses the participants online at ballot time (2), not
the request-time snapshot. -/
theorem c2_counterexample :
    (requestScreenShare dbSolo "r" "alice" "s1").2 = ReqResult.ok "s1" ["alice"] ∧
    sessionById dbSnapshot "s1" =
      some { id := "s1", room_id := "r", session_type := "screen_share",
             host_user_id := "alice", is_active := false,
             metaStatus := some "pending_permission", metaParticipantCount := 1 } ∧
    ((screenSharePermission dbSnapshotGrown "s1" "alice" true).1.screen_share_permissions.filter
        (fun p => p.session_id = "s1" && p.granted)).length = 1 ∧
    (screenSharePermission dbSnapshotGrown "s1" "alice" true).2 =
      BallotResult.ok "waiting_for_responses" 1 2 ∧
    sessionById (screenSharePermission dbSnapshotGrown "s1" "alice" true).1 "s1" =
      some { id := "s1", room_id := "r", session_type := "screen_share",
             host_user_id := "alice", is_active := false,
             metaStatus := some "pending_permission", metaParticipantCount := 1 } := by
  exact ⟨rfl, rfl, rfl, rfl, rfl⟩

/-- **C2** (amended): a pending session transitions to `active` exactly when
the number of recorded ballots equals the number of participants online *at
ballot time* and every recorded ballot is `granted = true`; the request-time
snapshot size (`metadata.participantCount`) is not consulted. -/
theorem c2_active_iff_online_at_ballot_time (db : Db) (sid uid : String) (g : Bool)
    (s : WebrtcSession) (hs : sessionById db sid = some s)
    (hpend : s.metaStatus = some "pending_permission") :
    (∃ s2, sessionById (screenSharePermission db sid uid g).1 sid = some s2 ∧
        s2.metaStatus = some "active" ∧ s2.is_active = true) ↔
      (((upsertPermission db.screen_share_permissions sid uid g).filter
          (fun p => p.session_id = sid)).length = (onlineInRoom db s.room_id).length ∧
        ((upsertPermission db.screen_share_permissions sid uid g).filter
          (fun p => p.session_id = sid)).all (fun p => p.granted) = true) := by
  by_cases hc : ((upsertPermission db.screen_share_permissions sid uid g).filter
      (fun p => p.session_id = sid)).length = (onlineInRoom db s.room_id).length
  · by_cases hag : ((upsertPermission db.screen_share_permissions sid uid g).filter
        (fun p => p.session_id = sid)).all (fun p => p.granted) = true
    · constructor
      · intro _
        exact ⟨hc, hag⟩
      · intro _
        refine ⟨{ s with is_active := true, metaStatus := some "active" }, ?_, rfl, rfl⟩
        rw [(screenSharePermission_activates db sid uid g s hs hpend hc hag).1]
        simp only [sessionById]
        exact find?_map_update_webrtc db.webrtc_sessions sid true "active" s hs
    · have hag2 : ((upsertPermission db.screen_share_permissions sid uid g).filter
          (fun p => p.session_id = sid)).all (fun p => p.granted) = false :=
        Bool.not_eq_true _ ▸ hag
      constructor
      · rintro ⟨s2, hfind2, hstat2, _⟩
        rw [(screenSharePermission_cancels db sid uid g s hs hpend hc hag2).1] at hfind2
        have hfound : sessionById
            ({ db with
                screen_share_permissions :=
                  upsertPermission db.screen_share_permissions sid uid g,
                webrtc_sessions := db.webrtc_sessions.map (fun x =>
                  if x.id = sid then
                    { x with is_active := false, metaStatus := some "cancelled" }
                  else x) } : Db) sid =
            some { s with is_active := false, metaStatus := some "cancelled" } := by
          simp only [sessionById]
          exact find?_map_update_webrtc db.webrtc_sessions sid false "cancelled" s hs
        rw [hfound] at hfind2
        have hs2 := Option.some.inj hfind2
        rw [← hs2] at hstat2
        simp at hstat2
      · rintro ⟨_, hagx⟩
        exact absurd hagx hag
  · constructor
    · rintro ⟨s2, hfind2, hstat2, _⟩
      rw [screenSharePermission_waiting_fst db sid uid g s hs hpend hc] at hfind2
      have hsame : sessionById { db with screen_share_permissions := upsertPermission db.screen_share_permissions sid uid g } sid = some s := hs
      rw [hsame] at hfind2
      have hs2 := Option.some.inj hfind2
      rw [← hs2, hpend] at hstat2
      simp at hstat2
    · rintro ⟨hc2, _⟩
      exact absurd hc2 hc

/-- **C2, witness.**  In the one-participant room, the single grant from carol meets
the live-participant threshold and activates the session. -/
theorem c2_witness :
    ∃ s2, sessionById (screenSharePermission dbOne "s2" "carol" true).1 "s2" =
        some s2 ∧ s2.metaStatus = some "active" ∧ s2.is_active = true := by
  exact (c2_active_iff_online_at_ballot_time dbOne "s2" "carol" true _ rfl rfl).mpr
    ⟨by decide, by decide⟩

/-! ## C3 -/

/-- **C3** (code bug, evaluation at the failing input).  `dbTwo` already holds
the screen-share session `s1` in `pending_permission` for room `r`; the claim
requires the next request to fail with Conflict (409).  Instead the request
succeeds and a second `pending_permission` screen-share session for the same
room is created: the conflict lookup names a `status` column that
`webrtc_sessions` does not have, its error is discarded, and the 409 branch is
unreachable. -/
theorem c3_conflict_check_dead :
    (requestScreenShare dbTwo "r" "alice" "sNew").2 =
      ReqResult.ok "sNew" ["alice", "bob"] ∧
    ((requestScreenShare dbTwo "r" "alice" "sNew").1.webrtc_sessions.filter
        (fun s => s.room_id = "r" && s.session_type = "screen_share" &&
          s.metaStatus = some "pending_permission")).length = 2 := by
  exact ⟨rfl, rfl⟩

/-! ## C7 -/

/-- **C7.**  Casting a ballot for a voter who already has one on the session
is an upsert keyed on `(session_id, user_id)`: the number of recorded ballots
does not grow, and the row of the voter afterwards carries the newly cast
`granted` value. -/
theorem c7_repeat_ballot_upserts (db : Db) (sid uid : String) (g : Bool)
    (s : WebrtcSession) (hs : sessionById db sid = some s)
    (hpend : s.metaStatus = some "pending_permission")
    (hvoted : ∃ q ∈ db.screen_share_permissions, q.session_id = sid ∧ q.user_id = uid) :
    (screenSharePermission db sid uid g).1.screen_share_permissions.length =
      db.screen_share_permissions.length ∧
    ∃ p ∈ (screenSharePermission db sid uid g).1.screen_share_permissions,
      p.session_id = sid ∧ p.user_id = uid ∧ p.granted = g := by
  rw [screenSharePermission_ballots db sid uid g s hs hpend]
  exact ⟨upsertPermission_length db.screen_share_permissions sid uid g hvoted,
    upsertPermission_mem db.screen_share_permissions sid uid g⟩

/-- `dbTwo` after bob has already cast a deny ballot on `s1`. -/
def dbTwoVoted : Db :=
  { dbTwo with screen_share_permissions :=
      [{ session_id := "s1", user_id := "bob", granted := false }] }

/-- **C7, witness.**  Bob re-casts (now granting): the ballot count stays at
1 and the row of bob now reads `granted = true`. -/
theorem c7_witness :
    (screenSharePermission dbTwoVoted "s1" "bob" true).1.screen_share_permissions.length
        = 1 ∧
    ∃ p ∈ (screenSharePermission dbTwoVoted "s1" "bob" true).1.screen_share_permissions,
      p.session_id = "s1" ∧ p.user_id = "bob" ∧ p.granted = true := by
  exact c7_repeat_ballot_upserts dbTwoVoted "s1" "bob" true _ rfl rfl
    ⟨{ session_id := "s1", user_id := "bob", granted := false }, by decide, rfl, rfl⟩

/-! ## C10 -/

/-- **C10.**  A recording request from a room member who is not the host is
rejected with 403 "Only room host can start recording" and changes nothing —
before any conflict check or session creation (the equation holds for every
store, also ones with conflicting sessions).  A screen-share request from the
same non-host member is subject to no host restriction: it proceeds to create
the session and return the online-participant snapshot. -/
theorem c10_recording_host_only (db : Db) (rid uid nid : String) (p : Participant)
    (hp : findParticipant db rid uid = some p) (hhost : p.is_host = false) :
    requestRecording db rid uid nid =
      (db, ReqResult.err 403 "Only room host can start recording") ∧
    (requestScreenShare db rid uid nid).2 =
      ReqResult.ok nid ((onlineInRoom db rid).map Participant.user_id) := by
  constructor
  · unfold requestRecording
    rw [hp]
    simp [hhost]
  · unfold requestScreenShare
    rw [hp]
    rfl

/-- **C10, witness.**  Bob (not the host) in the two-participant room: his
recording request is rejected 403 while his screen-share request succeeds. -/
theorem c10_witness :
    requestRecording dbTwo "r" "bob" "recNew" =
      (dbTwo, ReqResult.err 403 "Only room host can start recording") ∧
    (requestScreenShare dbTwo "r" "bob" "sNew2").2 =
      ReqResult.ok "sNew2" ((onlineInRoom dbTwo "r").map Participant.user_id) := by
  exact c10_recording_host_only dbTwo "r" "bob" "sNew2"
    { user_id := "bob", room_id := "r", display_name := "Bob",
      is_host := false, is_online := true } rfl rfl

/-! ## C4 -/

/-- The empty store. -/
def dbEmpty : Db :=
  { participants := [], webrtc_sessions := [], recording_sessions := [],
    screen_share_permissions := [], recording_permissions := [],
    webrtc_signals := [] }

/-- **C4, counterexample.**  A self-addressed envelope
(`from_peer = to_peer = "alice"`) for a room id that exists nowhere in the
store is stored successfully — the claim says such a send fails with
`ValidationError` and stores nothing. -/
theorem c4_counterexample :
    (postSignal dbEmpty "ghost-room" "alice" "alice" "offer" "sdp" 1000 1).webrtc_signals =
      [{ id := 1, room_id := "ghost-room", from_peer := "alice",
         to_peer := "alice", signal_type := "offer", signal_data := "sdp",
         created_at := 1000, expires_at := 1000 + fiveMinutesMs }] := by
  exact rfl

/-- **C4** (amended): the send handler performs no validation at all — for
every store and every envelope whatsoever (the peers and the room id are
arbitrary, so the statement covers self-addressed envelopes with
`from_peer = to_peer` as well as envelopes with distinct peers addressed to a
room id unknown to the store), the envelope is appended with a 5-minute TTL
and nothing is rejected. -/
theorem c4_send_never_validates (db : Db) (roomId fromU toU ty payload : String)
    (now newId : Nat) :
    (postSignal db roomId fromU toU ty payload now newId).webrtc_signals =
      db.webrtc_signals ++
        [{ id := newId, room_id := roomId, from_peer := fromU, to_peer := toU,
           signal_type := ty, signal_data := payload, created_at := now,
           expires_at := now + fiveMinutesMs }] := by
  exact rfl

/-! ## C5 -/

/-- Every envelope a receive poll returns is unexpired at the poll time. -/
theorem mem_getSignals_not_expired (db : Db) (roomId userId : String) (now : Nat)
    (s : Signal) (hs : s ∈ (getSignals db roomId userId now).2) :
    now < s.expires_at := by
  unfold getSignals at hs
  rw [List.mem_insertionSort] at hs
  rw [List.mem_filter] at hs
  have := hs.2
  simp only [Bool.and_eq_true, decide_eq_true_eq] at this
  exact this.2

/-- Every envelope a receive poll returns is addressed to the polled peer in
the polled room and was in the store. -/
theorem mem_getSignals_spec (db : Db) (roomId userId : String) (now : Nat)
    (s : Signal) :
    s ∈ (getSignals db roomId userId now).2 ↔
      s ∈ db.webrtc_signals ∧ s.room_id = roomId ∧ s.to_peer = userId ∧
        now < s.expires_at := by
  unfold getSignals
  rw [List.mem_insertionSort, List.mem_filter]
  simp only [Bool.and_eq_true, decide_eq_true_eq]
  tauto

/-- **C5.**  Two consecutive receive polls with no send in between
(`t1 ≤ t2`): the first returns exactly the non-expired envelopes addressed to
the peer in the room, sorted by creation time, and removes each returned
envelope from the store; the second returns the empty list. -/
theorem c5_receive_consumes (db : Db) (roomId userId : String) (t1 t2 : Nat)
    (h : t1 ≤ t2) :
    (∀ s, s ∈ (getSignals db roomId userId t1).2 ↔
        s ∈ db.webrtc_signals ∧ s.room_id = roomId ∧ s.to_peer = userId ∧
          t1 < s.expires_at) ∧
    List.Sorted createdLE (getSignals db roomId userId t1).2 ∧
    (∀ s, s ∈ (getSignals db roomId userId t1).2 →
        s ∉ ((getSignals db roomId userId t1).1).webrtc_signals) ∧
    (getSignals (getSignals db roomId userId t1).1 roomId userId t2).2 = [] := by
  refine ⟨mem_getSignals_spec db roomId userId t1, ?_, ?_, ?_⟩
  · unfold getSignals
    exact List.sorted_insertionSort createdLE _
  · intro s hs
    intro hmem
    unfold getSignals at hmem
    rw [List.mem_filter] at hmem
    have hid : s.id ∈ (getSignals db roomId userId t1).2.map Signal.id :=
      List.mem_map_of_mem Signal.id hs
    have := hmem.2
    unfold getSignals at hid
    simp only [Bool.not_eq_true', decide_eq_false_iff_not] at this
    exact this hid
  · have hnil : ((getSignals db roomId userId t1).1).webrtc_signals.filter
        (fun s => s.room_id = roomId && s.to_peer = userId && t2 < s.expires_at) = [] := by
      rw [List.filter_eq_nil_iff]
      intro s hmem hpred
      simp only [Bool.and_eq_true, decide_eq_true_eq] at hpred
      unfold getSignals at hmem
      rw [List.mem_filter] at hmem
      have hin : s ∈ (getSignals db roomId userId t1).2 := by
        rw [mem_getSignals_spec]
        exact ⟨hmem.1, hpred.1.1, hpred.1.2, lt_of_le_of_lt h hpred.2⟩
      have hid : s.id ∈ (getSignals db roomId userId t1).2.map Signal.id :=
        List.mem_map_of_mem Signal.id hin
      have hnot := hmem.2
      unfold getSignals at hid hnot
      simp only [Bool.not_eq_true', decide_eq_false_iff_not] at hnot
      exact hnot hid
    show List.insertionSort createdLE _ = []
    rw [hnil]
    rfl

/-- Store holding one envelope for bob in room `r`, expiring at `300000`. -/
def dbOneSignal : Db :=
  { dbEmpty with webrtc_signals :=
      [{ id := 1, room_id := "r", from_peer := "alice", to_peer := "bob",
         signal_type := "offer", signal_data := "sdp", created_at := 0,
         expires_at := fiveMinutesMs }] }

/-- **C5, witness.**  Polling the envelopes of bob at `t1 = 5` and again at
`t2 = 6`: the envelope arrives on the first poll only. -/
theorem c5_witness :
    ((getSignals dbOneSignal "r" "bob" 5).2 =
        [{ id := 1, room_id := "r", from_peer := "alice", to_peer := "bob",
           signal_type := "offer", signal_data := "sdp", created_at := 0,
           expires_at := fiveMinutesMs }] ∧
      (getSignals (getSignals dbOneSignal "r" "bob" 5).1 "r" "bob" 6).2 = []) := by
  exact ⟨rfl, (c5_receive_consumes dbOneSignal "r" "bob" 5 6 (by decide)).2.2.2⟩

/-! ## C6 -/

/-- **C6.**  Every stored envelope gets `expires_at` exactly five minutes
after the send time, and no receive poll whose query time has reached an
expiry of an envelope ever returns it (the poll filter requires
`expires_at > now`), so an unpolled envelope is absent from every receive
result at or after its expiry. -/
theorem c6_ttl_expiry (db : Db) (roomId fromU toU ty payload : String)
    (now newId : Nat) :
    (∃ s, s ∈ (postSignal db roomId fromU toU ty payload now newId).webrtc_signals ∧
        s.id = newId ∧ s.created_at = now ∧ s.expires_at = now + fiveMinutesMs) ∧
    (∀ (db2 : Db) (rid uid : String) (t : Nat) (s : Signal),
        s ∈ (getSignals db2 rid uid t).2 → t < s.expires_at) := by
  constructor
  · refine ⟨{ id := newId, room_id := roomId, from_peer := fromU, to_peer := toU,
               signal_type := ty, signal_data := payload, created_at := now,
               expires_at := now + fiveMinutesMs }, ?_, rfl, rfl, rfl⟩
    unfold postSignal
    exact List.mem_append_right _ (List.mem_singleton_self _)
  · intro db2 rid uid t s hs
    exact mem_getSignals_not_expired db2 rid uid t s hs

/-- **C6, witness.**  The envelope in `dbOneSignal` is returned at `t = 5`
(before expiry), and the theorem instantiated there yields
`5 < expires_at`; at `t = fiveMinutesMs` (the expiry instant) the poll
returns nothing. -/
theorem c6_witness :
    ({ id := 1, room_id := "r", from_peer := "alice", to_peer := "bob",
       signal_type := "offer", signal_data := "sdp", created_at := 0,
       expires_at := fiveMinutesMs } : Signal) ∈
        (getSignals dbOneSignal "r" "bob" 5).2 ∧
    (5 : Nat) <
      ({ id := 1, room_id := "r", from_peer := "alice", to_peer := "bob",
         signal_type := "offer", signal_data := "sdp", created_at := 0,
         expires_at := fiveMinutesMs } : Signal).expires_at ∧
    (getSignals dbOneSignal "r" "bob" fiveMinutesMs).2 = [] := by
  refine ⟨by decide, ?_, by decide⟩
  exact (c6_ttl_expiry dbEmpty "r" "alice" "bob" "offer" "sdp" 0 1).2
    dbOneSignal "r" "bob" 5 _ (by decide)

/-! ## C8 -/

/-- `handleStopScreenShare` preserves every event already in the trace. -/
theorem handleStop_trace_mono (m : ManagerState) (e : MEvent) (he : e ∈ m.trace) :
    e ∈ (handleStopScreenShare m).trace := by
  unfold handleStopScreenShare
  dsimp only
  split <;> split <;> simp [he]

/-- After `handleStopScreenShare` the share is torn down: no local stream, not
sharing, attempt counter reset, status idle; and no new timer was created
(every pending timer already existed). -/
theorem handleStop_teardown (m : ManagerState) :
    (handleStopScreenShare m).isScreenSharing = false ∧
    (handleStopScreenShare m).localStream = false ∧
    (handleStopScreenShare m).reconnectAttempts = 0 ∧
    (handleStopScreenShare m).connectionStatus = "idle" ∧
    (∀ t ∈ (handleStopScreenShare m).timers, t ∈ m.timers) := by
  refine ⟨rfl, ?_, rfl, rfl, ?_⟩
  · unfold handleStopScreenShare
    dsimp only
    split <;> split <;> simp_all
  · unfold handleStopScreenShare
    dsimp only
    split <;> split <;>
      intro t ht <;>
        first
          | exact ht
          | exact (List.mem_filter.mp ht).1

/-- **C8.**  A track-ended event while the user has not manually stopped and
sharing is on: while fewer than `maxReconnectAttempts = 3` reconnections have
been attempted, the handler increments the counter, enters `reconnecting`,
and schedules exactly one reconnection timer, tracked in
`reconnectTimeoutRef`, firing after `2000 ms × (new count)` — 2 s, 4 s, 6 s
for counts 1, 2, 3.  Once 3 attempts have been made, the next track-ended
event sets status `failed`, tears the share down locally (no stream, not
sharing), and schedules no further timer. -/
theorem c8_backoff_then_failed (m : ManagerState) (now tid : Nat)
    (hstop : m.isUserStopped = false) (hshare : m.isScreenSharing = true) :
    (m.reconnectAttempts < maxReconnectAttempts →
      (handleEnded m now tid).reconnectAttempts = m.reconnectAttempts + 1 ∧
      (handleEnded m now tid).connectionStatus = "reconnecting" ∧
      (handleEnded m now tid).timers =
        m.timers ++ [(tid, now + 2000 * (m.reconnectAttempts + 1))] ∧
      (handleEnded m now tid).reconnectTimeout = some tid) ∧
    (maxReconnectAttempts ≤ m.reconnectAttempts →
      MEvent.setStatus "failed" ∈ (handleEnded m now tid).trace ∧
      (handleEnded m now tid).isScreenSharing = false ∧
      (handleEnded m now tid).localStream = false ∧
      (∀ t ∈ (handleEnded m now tid).timers, t ∈ m.timers)) := by
  constructor
  · intro hlt
    unfold handleEnded
    rw [hstop, hshare]
    simp only [Bool.not_false, Bool.true_and, decide_eq_true_eq]
    rw [if_pos hlt]
    exact ⟨rfl, rfl, rfl, rfl⟩
  · intro hge
    have hnlt : ¬(m.reconnectAttempts < maxReconnectAttempts) := Nat.not_lt.mpr hge
    unfold handleEnded
    rw [hstop, hshare]
    simp only [Bool.not_false, Bool.true_and, decide_eq_true_eq]
    rw [if_neg hnlt]
    simp only [Bool.false_eq_true, if_false]
    refine ⟨?_, ?_, ?_, ?_⟩
    · exact handleStop_trace_mono _ _ (List.mem_append_right _ (List.mem_singleton_self _))
    · exact (handleStop_teardown _).1
    · exact (handleStop_teardown _).2.1
    · exact (handleStop_teardown _).2.2.2.2

/-- A freshly connected sharing manager: no attempts yet, no pending timers. -/
def mgrFresh : ManagerState :=
  { isScreenSharing := true, connectionStatus := "connected",
    reconnectAttempts := 0, isUserStopped := false, reconnectTimeout := none,
    timers := [], endedHandler := true, localStream := true, trace := [] }

/-- `mgrFresh` with the three reconnection attempts already used up. -/
def mgrExhausted : ManagerState := { mgrFresh with reconnectAttempts := 3 }

/-- **C8, witness.**  First track-ended event on a fresh manager: counter 1,
`reconnecting`, one tracked timer at +2000 ms.  Track-ended after 3 attempts:
`failed` in the trace, torn down, no timer scheduled. -/
theorem c8_witness :
    ((handleEnded mgrFresh 10000 1).reconnectAttempts = 1 ∧
      (handleEnded mgrFresh 10000 1).connectionStatus = "reconnecting" ∧
      (handleEnded mgrFresh 10000 1).timers = [(1, 10000 + 2000 * 1)] ∧
      (handleEnded mgrFresh 10000 1).reconnectTimeout = some 1) ∧
    (MEvent.setStatus "failed" ∈ (handleEnded mgrExhausted 10000 2).trace ∧
      (handleEnded mgrExhausted 10000 2).isScreenSharing = false ∧
      (handleEnded mgrExhausted 10000 2).localStream = false ∧
      ∀ t ∈ (handleEnded mgrExhausted 10000 2).timers, t ∈ mgrExhausted.timers) := by
  constructor
  · exact (c8_backoff_then_failed mgrFresh 10000 1 rfl rfl).1 (by decide)
  · exact (c8_backoff_then_failed mgrExhausted 10000 2 rfl rfl).2 (by decide)

/-! ## C9 -/

/-- Track ends at t = 10000: a tracked reconnection timer (id 1) is scheduled
for t = 12000. -/
def mgrStep1 : ManagerState := handleEnded mgrFresh 10000 1

/-- Timer 1 fires and the reconnection attempt fails transiently: a retry
timer (id 2) is scheduled for t = 17000 by a bare `setTimeout` that is *not*
stored in `reconnectTimeoutRef`. -/
def mgrStep2 : ManagerState :=
  fireTimer mgrStep1 1 ReconnectOutcome.transientError 12000 2

/-- The user manually stops sharing at t = 13000. -/
def mgrStep3 : ManagerState := handleStopScreenShare mgrStep2

/-- The untracked retry timer 2 fires at t = 17000 and the capture succeeds. -/
def mgrStep4 : ManagerState := fireTimer mgrStep3 2 ReconnectOutcome.success 17000 3

/-- **C9** (code bug, evaluation at the failing input).  The 5-second retry
scheduled by a failed reconnection attempt is not stored in
`reconnectTimeoutRef`, and `handleReconnectScreenShare` never consults
`isUserStoppedRef`; so after a manual stop the retry timer is still pending,
and when it fires it calls `getDisplayMedia` again and resumes capture — an
automatically scheduled reconnect runs after the manual stop, which the claim
rules out. -/
theorem c9_manual_stop_misses_retry_timer :
    (2, 17000) ∈ mgrStep3.timers ∧
    mgrStep3.isScreenSharing = false ∧
    mgrStep3.localStream = false ∧
    mgrStep4.trace = mgrStep3.trace ++
      [MEvent.setStatus "connecting", MEvent.getDisplayMedia,
       MEvent.setStatus "connected"] ∧
    mgrStep4.localStream = true ∧
    mgrStep4.connectionStatus = "connected" := by
  exact ⟨by decide, rfl, rfl, rfl, rfl, rfl⟩

end ThisThat
